import Mathlib

/-!
Shallow embedding of the trading-bot webhook repository
(`src/main.py`, `src/trading_strategies.py`).

The repository is a Cloud-Function webhook: `handler` in `main.py`
authenticates a POST request against the `WEBHOOK_SECRET_KEY`
environment variable and dispatches to one of three pure
strategy-to-order translation functions in `trading_strategies.py`
(`trade_bull_call_spread`, `trade_bear_call_spread`,
`trade_iron_condor`), each of which builds one multi-leg
`OptionOrderRequest` and submits it through the Alpaca client.

Modelling decisions:
* Python strings are `String`; `str.replace('-','')` is modelled by
  filtering the character `'-'` out of the character list (extensionally
  the same operation for a one-character pattern), `str.upper()` by
  mapping `Char.toUpper`, and f-string format specs `:<6` / `:08d` by
  explicit padding helpers.
* Strike prices are exact rationals `ℚ`; Python's `int(strike * 1000)`
  truncation toward zero is `pyIntTimes1000`.  Floating-point
  representation error is outside the model.
* The Alpaca client is a function from an order payload to
  `Except APIError Order`; each trade function returns its Python
  result (`Except PyError Order`) together with the list of payloads it
  passed to `client.submit_order`, so submission counting is explicit.
* The Python library class `OptionOrderRequest` is used by the source
  both for the top-level order and for legs; legs never carry
  `order_class`, `limit_price` or `legs`, so the embedding splits it
  into `OptionOrderRequest` (top level) and `OptionLegRequest` (legs),
  with the leg fields the source leaves unset as `Option`.
-/

namespace TradingBot

/-- Python truthiness of an optional string: `None` and `""` are falsy. -/
def pyTruthy : Option String → Bool
  | none => false
  | some s => s != ""

/-- Python `int(strike * 1000)` on an exact rational `strike`: truncation
toward zero of `1000 * strike`, computed on the numerator/denominator
representation (`1000 * strike = (1000 * num) / den`, so its truncation is
the natural division of `1000 * |num|` by `den`, signed). -/
def pyIntTimes1000 (q : ℚ) : ℤ :=
  if 0 ≤ q.num then ((1000 * q.num.toNat / q.den : ℕ) : ℤ)
  else -((1000 * (-q.num).toNat / q.den : ℕ) : ℤ)

/-- Zero-fill a decimal string on the left to width `w`
(the digits part of Python's `:0wd` format spec). -/
def zfill (w : Nat) (s : String) : String :=
  String.mk (List.replicate (w - s.length) '0') ++ s

/-- Python's `f"{n:08d}"`-style format: sign first, then zero padding. -/
def pyFormat0d (w : Nat) (n : ℤ) : String :=
  if n < 0 then "-" ++ zfill (w - 1) (toString (-n).toNat)
  else zfill w (toString n.toNat)

/-- Python's `f"{s:<6}"`-style format: left-justify, pad with spaces to width `w`. -/
def pyFormatLeft (w : Nat) (s : String) : String :=
  s ++ String.mk (List.replicate (w - s.length) ' ')

/-- Python `s.upper()` (ASCII case, which is all the source uses). -/
def pyUpper (s : String) : String :=
  String.mk (s.data.map Char.toUpper)

/-- Python `s.replace('-', '')`: drop every `'-'` character. -/
def pyStripDashes (s : String) : String :=
  String.mk (s.data.filter (fun c => c ≠ '-'))

/-- Python `s[2:]`. -/
def pyDrop2 (s : String) : String :=
  String.mk (s.data.drop 2)

/-- Python `s.upper()[0]`, defined on the nonempty strings the source feeds it. -/
def pyFirstUpperChar (s : String) : Char :=
  (pyUpper s).front

/-- Embedding of `_get_option_symbol` from `trading_strategies.py` (lines 11–25):
formats the OCC option symbol.  Its own docstring gives the example
`SPY251219C00500000`.  The f-string is
`f"{underlying_symbol.upper():<6}{yy_mm_dd}{option_type_char}{strike_formatted}"`. -/
def _get_option_symbol (underlying_symbol expiration_date option_type : String)
    (strike : ℚ) : String :=
  let yy_mm_dd := pyDrop2 (pyStripDashes expiration_date)
  let option_type_char := pyFirstUpperChar option_type
  let strike_formatted := pyFormat0d 8 (pyIntTimes1000 strike)
  pyFormatLeft 6 (pyUpper underlying_symbol) ++ yy_mm_dd
    ++ String.singleton option_type_char ++ strike_formatted

/-- Embedding of `OrderSide` from `alpaca_trade_api.entity` (only the members the source uses). -/
inductive OrderSide
  | BUY
  | SELL
deriving DecidableEq

/-- Embedding of `OrderType` (only the member the source uses). -/
inductive OrderType
  | LIMIT
deriving DecidableEq

/-- Embedding of `OrderClass` (only the member the source uses). -/
inductive OrderClass
  | MULTILEG
deriving DecidableEq

/-- Embedding of `TimeInForce` (only the member the source uses). -/
inductive TimeInForce
  | DAY
deriving DecidableEq

/-- A leg of a multi-leg order.  The Python source builds legs with the same
`OptionOrderRequest` class as the parent order, but sets at most `symbol`,
`qty`, `side`, `type` and `time_in_force` on them (the iron-condor legs set
only the first three); the fields the source sometimes leaves unset are
`Option`-typed here. -/
structure OptionLegRequest where
  symbol : String
  qty : ℤ
  side : OrderSide
  type : Option OrderType
  time_in_force : Option TimeInForce
deriving DecidableEq

/-- The top-level multi-leg `OptionOrderRequest` as the three strategy
functions build it: every field below is set explicitly at each of the three
construction sites in `trading_strategies.py`. -/
structure OptionOrderRequest where
  symbol : String
  qty : ℤ
  side : OrderSide
  type : OrderType
  time_in_force : TimeInForce
  order_class : OrderClass
  limit_price : ℚ
  legs : List OptionLegRequest
deriving DecidableEq

/-- Embedding of `APIError` from `alpaca_trade_api.rest`, abstracted to its message. -/
structure APIError where
  msg : String
deriving DecidableEq

/-- A submitted order as returned by the brokerage, abstracted to its id. -/
structure Order where
  id : String
deriving DecidableEq

/-- The Python exceptions the handler distinguishes (`main.py` lines 87–94):
`ValueError`/`TypeError` versus everything else, here `APIError`. -/
inductive PyError
  | valueError (msg : String)
  | typeError (msg : String)
  | apiError (e : APIError)
deriving DecidableEq

/-- The Alpaca REST client, abstracted to the one method the source calls:
`submit_order`, which either returns an order or raises an `APIError`. -/
structure AlpacaClient where
  submit_order : OptionOrderRequest → Except APIError Order

/-- The `order_data` object built by `trade_bull_call_spread`
(`trading_strategies.py` lines 50–74). -/
def bull_call_order_data (underlying_symbol expiration_date : String)
    (long_strike short_strike : ℚ) (quantity : ℤ)
    (time_in_force : TimeInForce) : OptionOrderRequest :=
  let long_call_symbol := _get_option_symbol underlying_symbol expiration_date "C" long_strike
  let short_call_symbol := _get_option_symbol underlying_symbol expiration_date "C" short_strike
  { symbol := underlying_symbol
    qty := quantity
    side := OrderSide.BUY
    type := OrderType.LIMIT
    time_in_force := time_in_force
    order_class := OrderClass.MULTILEG
    limit_price := (0.50 : ℚ)
    legs := [
      { symbol := long_call_symbol
        qty := quantity
        side := OrderSide.BUY
        type := some OrderType.LIMIT
        time_in_force := some time_in_force },
      { symbol := short_call_symbol
        qty := quantity
        side := OrderSide.SELL
        type := some OrderType.LIMIT
        time_in_force := some time_in_force }] }

/-- Embedding of `trade_bull_call_spread` (`trading_strategies.py` lines 27–82).
The returned pair is the Python result (value or raised exception) together
with the list of payloads passed to `client.submit_order` during the call. -/
def trade_bull_call_spread (client : AlpacaClient)
    (underlying_symbol expiration_date : String)
    (long_strike short_strike : ℚ) (quantity : ℤ)
    (time_in_force : TimeInForce := TimeInForce.DAY) :
    Except PyError Order × List OptionOrderRequest :=
  if ¬ long_strike < short_strike then
    (Except.error (PyError.valueError
      "For a Bull Call Spread, the long_strike must be less than the short_strike."), [])
  else
    let order_data := bull_call_order_data underlying_symbol expiration_date
      long_strike short_strike quantity time_in_force
    match client.submit_order order_data with
    | Except.ok order => (Except.ok order, [order_data])
    | Except.error e => (Except.error (PyError.apiError e), [order_data])

/-- The `order_data` object built by `trade_bear_call_spread`
(`trading_strategies.py` lines 107–131). -/
def bear_call_order_data (underlying_symbol expiration_date : String)
    (short_strike long_strike : ℚ) (quantity : ℤ)
    (time_in_force : TimeInForce) : OptionOrderRequest :=
  let short_call_symbol := _get_option_symbol underlying_symbol expiration_date "C" short_strike
  let long_call_symbol := _get_option_symbol underlying_symbol expiration_date "C" long_strike
  { symbol := underlying_symbol
    qty := quantity
    side := OrderSide.SELL
    type := OrderType.LIMIT
    time_in_force := time_in_force
    order_class := OrderClass.MULTILEG
    limit_price := (0.25 : ℚ)
    legs := [
      { symbol := short_call_symbol
        qty := quantity
        side := OrderSide.SELL
        type := some OrderType.LIMIT
        time_in_force := some time_in_force },
      { symbol := long_call_symbol
        qty := quantity
        side := OrderSide.BUY
        type := some OrderType.LIMIT
        time_in_force := some time_in_force }] }

/-- Embedding of `trade_bear_call_spread` (`trading_strategies.py` lines 84–139). -/
def trade_bear_call_spread (client : AlpacaClient)
    (underlying_symbol expiration_date : String)
    (short_strike long_strike : ℚ) (quantity : ℤ)
    (time_in_force : TimeInForce := TimeInForce.DAY) :
    Except PyError Order × List OptionOrderRequest :=
  if ¬ short_strike < long_strike then
    (Except.error (PyError.valueError
      "For a Bear Call Spread, the short_strike must be less than the long_strike."), [])
  else
    let order_data := bear_call_order_data underlying_symbol expiration_date
      short_strike long_strike quantity time_in_force
    match client.submit_order order_data with
    | Except.ok order => (Except.ok order, [order_data])
    | Except.error e => (Except.error (PyError.apiError e), [order_data])

/-- The `order_data` object built by `trade_iron_condor`
(`trading_strategies.py` lines 164–180); its legs set only `symbol`, `qty`
and `side`. -/
def iron_condor_order_data (underlying_symbol expiration_date : String)
    (long_put_strike short_put_strike short_call_strike long_call_strike : ℚ)
    (quantity : ℤ) (time_in_force : TimeInForce) : OptionOrderRequest :=
  let long_put_symbol := _get_option_symbol underlying_symbol expiration_date "P" long_put_strike
  let short_put_symbol := _get_option_symbol underlying_symbol expiration_date "P" short_put_strike
  let short_call_symbol := _get_option_symbol underlying_symbol expiration_date "C" short_call_strike
  let long_call_symbol := _get_option_symbol underlying_symbol expiration_date "C" long_call_strike
  { symbol := underlying_symbol
    qty := quantity
    side := OrderSide.SELL
    type := OrderType.LIMIT
    time_in_force := time_in_force
    order_class := OrderClass.MULTILEG
    limit_price := (0.75 : ℚ)
    legs := [
      { symbol := long_put_symbol, qty := quantity, side := OrderSide.BUY
        type := none, time_in_force := none },
      { symbol := short_put_symbol, qty := quantity, side := OrderSide.SELL
        type := none, time_in_force := none },
      { symbol := short_call_symbol, qty := quantity, side := OrderSide.SELL
        type := none, time_in_force := none },
      { symbol := long_call_symbol, qty := quantity, side := OrderSide.BUY
        type := none, time_in_force := none }] }

/-- Embedding of `trade_iron_condor` (`trading_strategies.py` lines 141–188). -/
def trade_iron_condor (client : AlpacaClient)
    (underlying_symbol expiration_date : String)
    (long_put_strike short_put_strike short_call_strike long_call_strike : ℚ)
    (quantity : ℤ) (time_in_force : TimeInForce := TimeInForce.DAY) :
    Except PyError Order × List OptionOrderRequest :=
  if ¬ (long_put_strike < short_put_strike ∧ short_put_strike < short_call_strike
      ∧ short_call_strike < long_call_strike) then
    (Except.error (PyError.valueError
      "Strikes must be in ascending order: long_put < short_put < short_call < long_call."), [])
  else
    let order_data := iron_condor_order_data underlying_symbol expiration_date
      long_put_strike short_put_strike short_call_strike long_call_strike
      quantity time_in_force
    match client.submit_order order_data with
    | Except.ok order => (Except.ok order, [order_data])
    | Except.error e => (Except.error (PyError.apiError e), [order_data])

/-- The `params` mapping of the webhook payload, as far as keyword binding
is concerned.  `main.py` splats it into the chosen strategy function with
`**params`; binding succeeds exactly when the dict's keys match the
function's parameter names.  The bull- and bear-call functions have the same
keyword parameter set `{underlying_symbol, expiration_date, long_strike,
short_strike, quantity}`, so one shape (`spreadParams`, fields in the bull
function's order) serves both; `condorParams` is the iron-condor shape;
`otherParams` stands for every other dict (missing `params` key included),
whose splat raises `TypeError`. -/
inductive ParamsDict
  | spreadParams (underlying_symbol expiration_date : String)
      (long_strike short_strike : ℚ) (quantity : ℤ)
  | condorParams (underlying_symbol expiration_date : String)
      (long_put_strike short_put_strike short_call_strike long_call_strike : ℚ)
      (quantity : ℤ)
  | otherParams
deriving DecidableEq

/-- The parsed JSON body of the webhook request: `data.get('secret_key')`,
`data.get('strategy')` and `data.get('params', {})` are the only reads the
handler performs. -/
structure WebhookPayload where
  secret_key : Option String
  strategy : Option String
  params : ParamsDict
deriving DecidableEq

/-- The inbound Flask request: its method, and its JSON body (`none` models
a body `request.get_json()` fails to parse, which `main.py` turns into 400). -/
structure Request where
  method : String
  json : Option WebhookPayload
deriving DecidableEq

/-- The process environment variables `main.py` reads. -/
structure Env where
  WEBHOOK_SECRET_KEY : Option String
  ALPACA_API_KEY : Option String
  ALPACA_SECRET_KEY : Option String
  ALPACA_PAPER_TRADING : Option String
deriving DecidableEq

/-- What a handler run observably does: the HTTP status it answers with and
the payloads submitted to the brokerage during the run. -/
structure HandlerResult where
  status : ℕ
  submitted : List OptionOrderRequest
deriving DecidableEq

/-- The `try/except` around the strategy call (`main.py` lines 74–94):
200 on success, 400 for `ValueError`/`TypeError`, 500 for anything else. -/
def run_trade (r : Except PyError Order × List OptionOrderRequest) : HandlerResult :=
  match r.1 with
  | Except.ok _ => { status := 200, submitted := r.2 }
  | Except.error (PyError.valueError _) => { status := 400, submitted := r.2 }
  | Except.error (PyError.typeError _) => { status := 400, submitted := r.2 }
  | Except.error (PyError.apiError _) => { status := 500, submitted := r.2 }

/-- The strategy routing of `main.py` lines 68–94: dispatch on the
`strategy` string, splat `params` into the chosen function (a shape
mismatch raises `TypeError`, caught as 400), unknown strategies answer 400.
Keyword binding sends the dict's `long_strike`/`short_strike` values to the
parameters of those names, whatever their positional order in the callee. -/
def dispatch (client : AlpacaClient) (data : WebhookPayload) : HandlerResult :=
  if data.strategy = some "bull_call_spread" then
    match data.params with
    | ParamsDict.spreadParams u e ls ss q =>
        run_trade (trade_bull_call_spread client u e ls ss q TimeInForce.DAY)
    | _ => { status := 400, submitted := [] }
  else if data.strategy = some "bear_call_spread" then
    match data.params with
    | ParamsDict.spreadParams u e ls ss q =>
        run_trade (trade_bear_call_spread client u e ss ls q TimeInForce.DAY)
    | _ => { status := 400, submitted := [] }
  else if data.strategy = some "iron_condor" then
    match data.params with
    | ParamsDict.condorParams u e lp sp sc lc q =>
        run_trade (trade_iron_condor client u e lp sp sc lc q TimeInForce.DAY)
    | _ => { status := 400, submitted := [] }
  else { status := 400, submitted := [] }

/-- Embedding of `handler` from `main.py` (lines 15–94).  `mkClient` stands for the call
`initialize_alpaca_client(api_key, secret_key, paper=...)`, which the source
wraps in a `try/except` of its own (500 on failure); the client object is
otherwise opaque to the handler. -/
def handler (env : Env) (mkClient : Except String AlpacaClient)
    (request : Request) : HandlerResult :=
  if request.method ≠ "POST" then
    { status := 405, submitted := [] }
  else
    match request.json with
    | none => { status := 400, submitted := [] }
    | some data =>
      if pyTruthy env.WEBHOOK_SECRET_KEY = false
          ∨ data.secret_key ≠ env.WEBHOOK_SECRET_KEY then
        { status := 403, submitted := [] }
      else
        if ¬ (pyTruthy env.ALPACA_API_KEY = true
            ∧ pyTruthy env.ALPACA_SECRET_KEY = true) then
          { status := 500, submitted := [] }
        else
          match mkClient with
          | Except.error _ => { status := 500, submitted := [] }
          | Except.ok client => dispatch client data

/-! Concrete clients, environments and requests used to instantiate the
theorems below on closed inputs. -/

/-- A brokerage client that accepts every order. -/
def okClient : AlpacaClient := ⟨fun _ => Except.ok { id := "oid-1" }⟩

/-- A brokerage client that rejects every order with an `APIError`. -/
def rejectClient : AlpacaClient := ⟨fun _ => Except.error { msg := "rejected" }⟩

/-- An environment with all secrets set. -/
def wEnv : Env :=
  { WEBHOOK_SECRET_KEY := some "s3", ALPACA_API_KEY := some "ak"
    ALPACA_SECRET_KEY := some "sk", ALPACA_PAPER_TRADING := none }

/-! Helper lemmas shared by the claim theorems. -/

theorem trade_bull_trace_eq (client : AlpacaClient) (u e : String) (ls ss : ℚ)
    (q : ℤ) (tif : TimeInForce) :
    (trade_bull_call_spread client u e ls ss q tif).2 =
      if ls < ss then [bull_call_order_data u e ls ss q tif] else [] := by
  unfold trade_bull_call_spread
  by_cases h : ls < ss
  · rw [if_neg (not_not_intro h), if_pos h]
    cases hs : client.submit_order (bull_call_order_data u e ls ss q tif) <;> simp [hs]
  · rw [if_pos h, if_neg h]

theorem trade_bear_trace_eq (client : AlpacaClient) (u e : String) (ss ls : ℚ)
    (q : ℤ) (tif : TimeInForce) :
    (trade_bear_call_spread client u e ss ls q tif).2 =
      if ss < ls then [bear_call_order_data u e ss ls q tif] else [] := by
  unfold trade_bear_call_spread
  by_cases h : ss < ls
  · rw [if_neg (not_not_intro h), if_pos h]
    cases hs : client.submit_order (bear_call_order_data u e ss ls q tif) <;> simp [hs]
  · rw [if_pos h, if_neg h]

theorem trade_condor_trace_eq (client : AlpacaClient) (u e : String)
    (lp sp sc lc : ℚ) (q : ℤ) (tif : TimeInForce) :
    (trade_iron_condor client u e lp sp sc lc q tif).2 =
      if lp < sp ∧ sp < sc ∧ sc < lc then
        [iron_condor_order_data u e lp sp sc lc q tif] else [] := by
  unfold trade_iron_condor
  by_cases h : lp < sp ∧ sp < sc ∧ sc < lc
  · rw [if_neg (not_not_intro h), if_pos h]
    cases hs : client.submit_order (iron_condor_order_data u e lp sp sc lc q tif) <;> simp [hs]
  · rw [if_pos h, if_neg h]

theorem trade_bull_result_eq (client : AlpacaClient) (u e : String) (ls ss : ℚ)
    (q : ℤ) (tif : TimeInForce) :
    (trade_bull_call_spread client u e ls ss q tif).1 =
      if ls < ss then
        (match client.submit_order (bull_call_order_data u e ls ss q tif) with
          | Except.ok o => Except.ok o
          | Except.error e' => Except.error (PyError.apiError e'))
      else Except.error (PyError.valueError
        "For a Bull Call Spread, the long_strike must be less than the short_strike.") := by
  unfold trade_bull_call_spread
  by_cases h : ls < ss
  · rw [if_neg (not_not_intro h), if_pos h]
    cases hs : client.submit_order (bull_call_order_data u e ls ss q tif) <;> simp [hs]
  · rw [if_pos h, if_neg h]

theorem trade_bear_result_eq (client : AlpacaClient) (u e : String) (ss ls : ℚ)
    (q : ℤ) (tif : TimeInForce) :
    (trade_bear_call_spread client u e ss ls q tif).1 =
      if ss < ls then
        (match client.submit_order (bear_call_order_data u e ss ls q tif) with
          | Except.ok o => Except.ok o
          | Except.error e' => Except.error (PyError.apiError e'))
      else Except.error (PyError.valueError
        "For a Bear Call Spread, the short_strike must be less than the long_strike.") := by
  unfold trade_bear_call_spread
  by_cases h : ss < ls
  · rw [if_neg (not_not_intro h), if_pos h]
    cases hs : client.submit_order (bear_call_order_data u e ss ls q tif) <;> simp [hs]
  · rw [if_pos h, if_neg h]

theorem trade_condor_result_eq (client : AlpacaClient) (u e : String)
    (lp sp sc lc : ℚ) (q : ℤ) (tif : TimeInForce) :
    (trade_iron_condor client u e lp sp sc lc q tif).1 =
      if lp < sp ∧ sp < sc ∧ sc < lc then
        (match client.submit_order (iron_condor_order_data u e lp sp sc lc q tif) with
          | Except.ok o => Except.ok o
          | Except.error e' => Except.error (PyError.apiError e'))
      else Except.error (PyError.valueError
        "Strikes must be in ascending order: long_put < short_put < short_call < long_call.") := by
  unfold trade_iron_condor
  by_cases h : lp < sp ∧ sp < sc ∧ sc < lc
  · rw [if_neg (not_not_intro h), if_pos h]
    cases hs : client.submit_order (iron_condor_order_data u e lp sp sc lc q tif) <;> simp [hs]
  · rw [if_pos h, if_neg h]

theorem handler_routes (env : Env) (mk : Except String AlpacaClient)
    (client : AlpacaClient) (req : Request) (data : WebhookPayload)
    (hm : req.method = "POST") (hj : req.json = some data)
    (hsec : pyTruthy env.WEBHOOK_SECRET_KEY = true)
    (hkey : data.secret_key = env.WEBHOOK_SECRET_KEY)
    (hak : pyTruthy env.ALPACA_API_KEY = true)
    (hsk : pyTruthy env.ALPACA_SECRET_KEY = true)
    (hc : mk = Except.ok client) :
    handler env mk req = dispatch client data := by
  simp [handler, hm, hj, hsec, hkey, hak, hsk, hc]

theorem run_trade_submitted (r : Except PyError Order × List OptionOrderRequest) :
    (run_trade r).submitted = r.2 := by
  unfold run_trade
  split <;> rfl

theorem dispatch_bull_eq (client : AlpacaClient) (data : WebhookPayload)
    (u e : String) (ls ss : ℚ) (q : ℤ)
    (hstrat : data.strategy = some "bull_call_spread")
    (hparams : data.params = ParamsDict.spreadParams u e ls ss q) :
    dispatch client data
      = run_trade (trade_bull_call_spread client u e ls ss q TimeInForce.DAY) := by
  unfold dispatch
  rw [hstrat, hparams, if_pos rfl]

theorem dispatch_bear_eq (client : AlpacaClient) (data : WebhookPayload)
    (u e : String) (ls ss : ℚ) (q : ℤ)
    (hstrat : data.strategy = some "bear_call_spread")
    (hparams : data.params = ParamsDict.spreadParams u e ls ss q) :
    dispatch client data
      = run_trade (trade_bear_call_spread client u e ss ls q TimeInForce.DAY) := by
  unfold dispatch
  rw [hstrat, hparams, if_neg (by decide), if_pos rfl]

theorem dispatch_condor_eq (client : AlpacaClient) (data : WebhookPayload)
    (u e : String) (lp sp sc lc : ℚ) (q : ℤ)
    (hstrat : data.strategy = some "iron_condor")
    (hparams : data.params = ParamsDict.condorParams u e lp sp sc lc q) :
    dispatch client data
      = run_trade (trade_iron_condor client u e lp sp sc lc q TimeInForce.DAY) := by
  unfold dispatch
  rw [hstrat, hparams, if_neg (by decide), if_neg (by decide), if_pos rfl]

theorem trade_bull_fail (client : AlpacaClient) (u e : String) (ls ss : ℚ)
    (q : ℤ) (tif : TimeInForce) (hn : ¬ ls < ss) :
    trade_bull_call_spread client u e ls ss q tif
      = (Except.error (PyError.valueError
          "For a Bull Call Spread, the long_strike must be less than the short_strike."), []) := by
  unfold trade_bull_call_spread
  rw [if_pos hn]

theorem trade_bear_fail (client : AlpacaClient) (u e : String) (ss ls : ℚ)
    (q : ℤ) (tif : TimeInForce) (hn : ¬ ss < ls) :
    trade_bear_call_spread client u e ss ls q tif
      = (Except.error (PyError.valueError
          "For a Bear Call Spread, the short_strike must be less than the long_strike."), []) := by
  unfold trade_bear_call_spread
  rw [if_pos hn]

theorem trade_condor_fail (client : AlpacaClient) (u e : String)
    (lp sp sc lc : ℚ) (q : ℤ) (tif : TimeInForce)
    (hn : ¬ (lp < sp ∧ sp < sc ∧ sc < lc)) :
    trade_iron_condor client u e lp sp sc lc q tif
      = (Except.error (PyError.valueError
          "Strikes must be in ascending order: long_put < short_put < short_call < long_call."), []) := by
  unfold trade_iron_condor
  rw [if_pos hn]

theorem trade_bull_apierror (client : AlpacaClient) (u e : String) (ls ss : ℚ)
    (q : ℤ) (tif : TimeInForce) (err : APIError) (h : ls < ss)
    (hsub : client.submit_order (bull_call_order_data u e ls ss q tif)
      = Except.error err) :
    trade_bull_call_spread client u e ls ss q tif
      = (Except.error (PyError.apiError err), [bull_call_order_data u e ls ss q tif]) := by
  unfold trade_bull_call_spread
  rw [if_neg (not_not_intro h)]
  simp only [hsub]

theorem trade_bear_apierror (client : AlpacaClient) (u e : String) (ss ls : ℚ)
    (q : ℤ) (tif : TimeInForce) (err : APIError) (h : ss < ls)
    (hsub : client.submit_order (bear_call_order_data u e ss ls q tif)
      = Except.error err) :
    trade_bear_call_spread client u e ss ls q tif
      = (Except.error (PyError.apiError err), [bear_call_order_data u e ss ls q tif]) := by
  unfold trade_bear_call_spread
  rw [if_neg (not_not_intro h)]
  simp only [hsub]

theorem trade_condor_apierror (client : AlpacaClient) (u e : String)
    (lp sp sc lc : ℚ) (q : ℤ) (tif : TimeInForce) (err : APIError)
    (h : lp < sp ∧ sp < sc ∧ sc < lc)
    (hsub : client.submit_order (iron_condor_order_data u e lp sp sc lc q tif)
      = Except.error err) :
    trade_iron_condor client u e lp sp sc lc q tif
      = (Except.error (PyError.apiError err),
          [iron_condor_order_data u e lp sp sc lc q tif]) := by
  unfold trade_iron_condor
  rw [if_neg (not_not_intro h)]
  simp only [hsub]

theorem bull_trace_len_le_one (client : AlpacaClient) (u e : String) (ls ss : ℚ)
    (q : ℤ) (tif : TimeInForce) :
    (trade_bull_call_spread client u e ls ss q tif).2.length ≤ 1 := by
  rw [trade_bull_trace_eq]
  split <;> simp

theorem bear_trace_len_le_one (client : AlpacaClient) (u e : String) (ss ls : ℚ)
    (q : ℤ) (tif : TimeInForce) :
    (trade_bear_call_spread client u e ss ls q tif).2.length ≤ 1 := by
  rw [trade_bear_trace_eq]
  split <;> simp

theorem condor_trace_len_le_one (client : AlpacaClient) (u e : String)
    (lp sp sc lc : ℚ) (q : ℤ) (tif : TimeInForce) :
    (trade_iron_condor client u e lp sp sc lc q tif).2.length ≤ 1 := by
  rw [trade_condor_trace_eq]
  split <;> simp

theorem dispatch_submits_le_one (client : AlpacaClient) (data : WebhookPayload) :
    (dispatch client data).submitted.length ≤ 1 := by
  unfold dispatch
  split
  · split
    · rw [run_trade_submitted]; exact bull_trace_len_le_one _ _ _ _ _ _ _
    · simp
  · split
    · split
      · rw [run_trade_submitted]; exact bear_trace_len_le_one _ _ _ _ _ _ _
      · simp
    · split
      · split
        · rw [run_trade_submitted]; exact condor_trace_len_le_one _ _ _ _ _ _ _ _ _
        · simp
      · simp

/-! The claim theorems. -/

/-- C1: if the payload's `secret_key` differs from the value of the
`WEBHOOK_SECRET_KEY` environment variable, `handler` answers 403 and
submits nothing to the brokerage: the run ends at the secret check, before
any translation function is reached. -/
theorem C1_secret_mismatch_forbidden (env : Env) (mk : Except String AlpacaClient)
    (req : Request) (data : WebhookPayload)
    (hm : req.method = "POST") (hj : req.json = some data)
    (hne : data.secret_key ≠ env.WEBHOOK_SECRET_KEY) :
    handler env mk req = { status := 403, submitted := [] } := by
  simp [handler, hm, hj, hne]

/-- The payload/request pair instantiating C1: the right strategy name but a
wrong secret. -/
def wrongKeyPayload : WebhookPayload :=
  { secret_key := some "wrong", strategy := some "bull_call_spread"
    params := ParamsDict.otherParams }

/-- See `wrongKeyPayload`. -/
def wrongKeyReq : Request := { method := "POST", json := some wrongKeyPayload }

/-- C1 at a concrete input. -/
theorem C1_secret_mismatch_forbidden_witness :
    wrongKeyReq.method = "POST" ∧
    handler wEnv (Except.ok okClient) wrongKeyReq = { status := 403, submitted := [] } :=
  ⟨rfl, C1_secret_mismatch_forbidden wEnv (Except.ok okClient) wrongKeyReq
    wrongKeyPayload rfl rfl (by decide)⟩

/-- C2 (code-bug evidence): at the docstring's own example input the
formatter space-pads the underlying to width 6 (the `:<6` format spec), so
it returns "SPY   251219C00500000" and not the "SPY251219C00500000" the
claim (and the function's docstring) state. -/
theorem C2_symbol_is_space_padded :
    _get_option_symbol "SPY" "2025-12-19" "C" 500 = "SPY   251219C00500000" ∧
    _get_option_symbol "SPY" "2025-12-19" "C" 500 ≠ "SPY251219C00500000" := by
  decide

/-- C7: the strategy-to-order translation is pure and stateless — the list
of payloads passed to `submit_order` is a function of the call's arguments
alone; in particular it is the same for any two client states, and two
calls with equal arguments construct equal payloads. -/
theorem C7_translation_pure :
    (∀ c₁ c₂ : AlpacaClient, ∀ u e ls ss q tif,
        (trade_bull_call_spread c₁ u e ls ss q tif).2
          = (trade_bull_call_spread c₂ u e ls ss q tif).2) ∧
    (∀ c₁ c₂ : AlpacaClient, ∀ u e ss ls q tif,
        (trade_bear_call_spread c₁ u e ss ls q tif).2
          = (trade_bear_call_spread c₂ u e ss ls q tif).2) ∧
    (∀ c₁ c₂ : AlpacaClient, ∀ u e lp sp sc lc q tif,
        (trade_iron_condor c₁ u e lp sp sc lc q tif).2
          = (trade_iron_condor c₂ u e lp sp sc lc q tif).2) := by
  refine ⟨?_, ?_, ?_⟩ <;> intros <;>
    simp only [trade_bull_trace_eq, trade_bear_trace_eq, trade_condor_trace_eq]

/-- An environment with `WEBHOOK_SECRET_KEY` unset. -/
def noSecretEnv : Env :=
  { WEBHOOK_SECRET_KEY := none, ALPACA_API_KEY := some "ak"
    ALPACA_SECRET_KEY := some "sk", ALPACA_PAPER_TRADING := none }

/-- A POST request whose body `request.get_json()` fails to parse. -/
def badJsonReq : Request := { method := "POST", json := none }

/-- C9 counterexample: with `WEBHOOK_SECRET_KEY` unset, a POST request whose
body fails JSON parsing is answered 400, not 403, so "403 for every POST
request" does not hold as stated. -/
theorem C9_unparsed_post_is_400 :
    badJsonReq.method = "POST" ∧ noSecretEnv.WEBHOOK_SECRET_KEY = none ∧
    (handler noSecretEnv (Except.ok okClient) badJsonReq).status = 400 ∧
    (handler noSecretEnv (Except.ok okClient) badJsonReq).status ≠ 403 := by
  decide

/-- C9 (amended): authentication fails closed — with `WEBHOOK_SECRET_KEY`
unset or empty, every POST request whose JSON body parses is answered 403
with nothing submitted, whatever `secret_key` the payload carries or
omits. -/
theorem C9_fail_closed (env : Env) (mk : Except String AlpacaClient)
    (req : Request) (data : WebhookPayload)
    (hsec : env.WEBHOOK_SECRET_KEY = none ∨ env.WEBHOOK_SECRET_KEY = some "")
    (hm : req.method = "POST") (hj : req.json = some data) :
    handler env mk req = { status := 403, submitted := [] } := by
  have hfalse : pyTruthy env.WEBHOOK_SECRET_KEY = false := by
    rcases hsec with h | h <;> simp [pyTruthy, h]
  simp [handler, hm, hj, hfalse]

/-- A payload that omits `secret_key` altogether. -/
def omitKeyPayload : WebhookPayload :=
  { secret_key := none, strategy := some "iron_condor", params := ParamsDict.otherParams }

/-- See `omitKeyPayload`. -/
def omitKeyReq : Request := { method := "POST", json := some omitKeyPayload }

/-- C9 (amended) at a concrete input. -/
theorem C9_fail_closed_witness :
    noSecretEnv.WEBHOOK_SECRET_KEY = none ∧
    handler noSecretEnv (Except.ok okClient) omitKeyReq = { status := 403, submitted := [] } :=
  ⟨rfl, C9_fail_closed noSecretEnv (Except.ok okClient) omitKeyReq omitKeyPayload
    (Or.inl rfl) rfl rfl⟩

/-- C10: every payload a strategy function submits carries that strategy's
hard-coded limit price — 0.50 for the bull call spread, 0.25 for the bear
call spread, 0.75 for the iron condor — independent of every
caller-supplied input. -/
theorem C10_limit_price_hardcoded :
    (∀ client u e ls ss q tif, ∀ o ∈ (trade_bull_call_spread client u e ls ss q tif).2,
        o.limit_price = (0.50 : ℚ)) ∧
    (∀ client u e ss ls q tif, ∀ o ∈ (trade_bear_call_spread client u e ss ls q tif).2,
        o.limit_price = (0.25 : ℚ)) ∧
    (∀ client u e lp sp sc lc q tif, ∀ o ∈ (trade_iron_condor client u e lp sp sc lc q tif).2,
        o.limit_price = (0.75 : ℚ)) := by
  refine ⟨?_, ?_, ?_⟩
  · intro client u e ls ss q tif o ho
    rw [trade_bull_trace_eq] at ho
    split at ho
    · simp only [List.mem_singleton] at ho; subst ho; rfl
    · simp at ho
  · intro client u e ss ls q tif o ho
    rw [trade_bear_trace_eq] at ho
    split at ho
    · simp only [List.mem_singleton] at ho; subst ho; rfl
    · simp at ho
  · intro client u e lp sp sc lc q tif o ho
    rw [trade_condor_trace_eq] at ho
    split at ho
    · simp only [List.mem_singleton] at ho; subst ho; rfl
    · simp at ho

/-- C10 at a concrete input. -/
theorem C10_limit_price_hardcoded_witness :
    (bull_call_order_data "SPY" "2025-12-19" 5 6 1 TimeInForce.DAY).limit_price = (0.50 : ℚ) :=
  C10_limit_price_hardcoded.1 okClient "SPY" "2025-12-19" 5 6 1 TimeInForce.DAY
    (bull_call_order_data "SPY" "2025-12-19" 5 6 1 TimeInForce.DAY)
    (by rw [trade_bull_trace_eq, if_pos (by decide : (5:ℚ) < 6)]
        exact List.mem_singleton_self _)

/-- C3: with `long_strike < short_strike`, `trade_bull_call_spread` submits
exactly one order: underlying as top-level symbol, aggregate side BUY,
order class MULTILEG, and exactly two legs — BUY the call at `long_strike`,
SELL the call at `short_strike` — each with the top-level quantity and the
symbols `_get_option_symbol` produces for option type "C". -/
theorem C3_bull_call_spread_order (client : AlpacaClient) (u e : String)
    (ls ss : ℚ) (q : ℤ) (tif : TimeInForce) (h : ls < ss) :
    (trade_bull_call_spread client u e ls ss q tif).2
      = [bull_call_order_data u e ls ss q tif] ∧
    bull_call_order_data u e ls ss q tif =
      { symbol := u, qty := q, side := OrderSide.BUY, type := OrderType.LIMIT
        time_in_force := tif, order_class := OrderClass.MULTILEG
        limit_price := (0.50 : ℚ)
        legs := [
          { symbol := _get_option_symbol u e "C" ls, qty := q, side := OrderSide.BUY
            type := some OrderType.LIMIT, time_in_force := some tif },
          { symbol := _get_option_symbol u e "C" ss, qty := q, side := OrderSide.SELL
            type := some OrderType.LIMIT, time_in_force := some tif }] } := by
  refine ⟨?_, rfl⟩
  rw [trade_bull_trace_eq, if_pos h]

/-- C3 at a concrete input. -/
theorem C3_bull_call_spread_order_witness :
    (5 : ℚ) < 6 ∧
    ((trade_bull_call_spread okClient "SPY" "2025-12-19" 5 6 2 TimeInForce.DAY).2
      = [bull_call_order_data "SPY" "2025-12-19" 5 6 2 TimeInForce.DAY] ∧
    bull_call_order_data "SPY" "2025-12-19" 5 6 2 TimeInForce.DAY =
      { symbol := "SPY", qty := 2, side := OrderSide.BUY, type := OrderType.LIMIT
        time_in_force := TimeInForce.DAY, order_class := OrderClass.MULTILEG
        limit_price := (0.50 : ℚ)
        legs := [
          { symbol := _get_option_symbol "SPY" "2025-12-19" "C" 5, qty := 2
            side := OrderSide.BUY, type := some OrderType.LIMIT
            time_in_force := some TimeInForce.DAY },
          { symbol := _get_option_symbol "SPY" "2025-12-19" "C" 6, qty := 2
            side := OrderSide.SELL, type := some OrderType.LIMIT
            time_in_force := some TimeInForce.DAY }] }) :=
  ⟨by decide, C3_bull_call_spread_order okClient "SPY" "2025-12-19" 5 6 2
    TimeInForce.DAY (by decide)⟩

/-- C4: with `short_strike < long_strike`, `trade_bear_call_spread` submits
exactly one order with aggregate side SELL and exactly two legs — first
SELL the call at `short_strike`, then BUY the call at `long_strike` — each
with the top-level quantity. -/
theorem C4_bear_call_spread_order (client : AlpacaClient) (u e : String)
    (ss ls : ℚ) (q : ℤ) (tif : TimeInForce) (h : ss < ls) :
    (trade_bear_call_spread client u e ss ls q tif).2
      = [bear_call_order_data u e ss ls q tif] ∧
    bear_call_order_data u e ss ls q tif =
      { symbol := u, qty := q, side := OrderSide.SELL, type := OrderType.LIMIT
        time_in_force := tif, order_class := OrderClass.MULTILEG
        limit_price := (0.25 : ℚ)
        legs := [
          { symbol := _get_option_symbol u e "C" ss, qty := q, side := OrderSide.SELL
            type := some OrderType.LIMIT, time_in_force := some tif },
          { symbol := _get_option_symbol u e "C" ls, qty := q, side := OrderSide.BUY
            type := some OrderType.LIMIT, time_in_force := some tif }] } := by
  refine ⟨?_, rfl⟩
  rw [trade_bear_trace_eq, if_pos h]

/-- C4 at a concrete input. -/
theorem C4_bear_call_spread_order_witness :
    (7 : ℚ) < 9 ∧
    ((trade_bear_call_spread okClient "QQQ" "2026-01-16" 7 9 1 TimeInForce.DAY).2
      = [bear_call_order_data "QQQ" "2026-01-16" 7 9 1 TimeInForce.DAY] ∧
    bear_call_order_data "QQQ" "2026-01-16" 7 9 1 TimeInForce.DAY =
      { symbol := "QQQ", qty := 1, side := OrderSide.SELL, type := OrderType.LIMIT
        time_in_force := TimeInForce.DAY, order_class := OrderClass.MULTILEG
        limit_price := (0.25 : ℚ)
        legs := [
          { symbol := _get_option_symbol "QQQ" "2026-01-16" "C" 7, qty := 1
            side := OrderSide.SELL, type := some OrderType.LIMIT
            time_in_force := some TimeInForce.DAY },
          { symbol := _get_option_symbol "QQQ" "2026-01-16" "C" 9, qty := 1
            side := OrderSide.BUY, type := some OrderType.LIMIT
            time_in_force := some TimeInForce.DAY }] }) :=
  ⟨by decide, C4_bear_call_spread_order okClient "QQQ" "2026-01-16" 7 9 1
    TimeInForce.DAY (by decide)⟩

/-- C5: with the four strikes strictly ascending, `trade_iron_condor`
submits exactly one order with aggregate side SELL and exactly four legs in
order — BUY put at `long_put_strike`, SELL put at `short_put_strike`, SELL
call at `short_call_strike`, BUY call at `long_call_strike` — each with the
top-level quantity. -/
theorem C5_iron_condor_order (client : AlpacaClient) (u e : String)
    (lp sp sc lc : ℚ) (q : ℤ) (tif : TimeInForce)
    (h : lp < sp ∧ sp < sc ∧ sc < lc) :
    (trade_iron_condor client u e lp sp sc lc q tif).2
      = [iron_condor_order_data u e lp sp sc lc q tif] ∧
    iron_condor_order_data u e lp sp sc lc q tif =
      { symbol := u, qty := q, side := OrderSide.SELL, type := OrderType.LIMIT
        time_in_force := tif, order_class := OrderClass.MULTILEG
        limit_price := (0.75 : ℚ)
        legs := [
          { symbol := _get_option_symbol u e "P" lp, qty := q, side := OrderSide.BUY
            type := none, time_in_force := none },
          { symbol := _get_option_symbol u e "P" sp, qty := q, side := OrderSide.SELL
            type := none, time_in_force := none },
          { symbol := _get_option_symbol u e "C" sc, qty := q, side := OrderSide.SELL
            type := none, time_in_force := none },
          { symbol := _get_option_symbol u e "C" lc, qty := q, side := OrderSide.BUY
            type := none, time_in_force := none }] } := by
  refine ⟨?_, rfl⟩
  rw [trade_condor_trace_eq, if_pos h]

/-- C5 at a concrete input. -/
theorem C5_iron_condor_order_witness :
    ((1 : ℚ) < 2 ∧ (2 : ℚ) < 3 ∧ (3 : ℚ) < 4) ∧
    ((trade_iron_condor okClient "IWM" "2026-03-20" 1 2 3 4 1 TimeInForce.DAY).2
      = [iron_condor_order_data "IWM" "2026-03-20" 1 2 3 4 1 TimeInForce.DAY] ∧
    iron_condor_order_data "IWM" "2026-03-20" 1 2 3 4 1 TimeInForce.DAY =
      { symbol := "IWM", qty := 1, side := OrderSide.SELL, type := OrderType.LIMIT
        time_in_force := TimeInForce.DAY, order_class := OrderClass.MULTILEG
        limit_price := (0.75 : ℚ)
        legs := [
          { symbol := _get_option_symbol "IWM" "2026-03-20" "P" 1, qty := 1
            side := OrderSide.BUY, type := none, time_in_force := none },
          { symbol := _get_option_symbol "IWM" "2026-03-20" "P" 2, qty := 1
            side := OrderSide.SELL, type := none, time_in_force := none },
          { symbol := _get_option_symbol "IWM" "2026-03-20" "C" 3, qty := 1
            side := OrderSide.SELL, type := none, time_in_force := none },
          { symbol := _get_option_symbol "IWM" "2026-03-20" "C" 4, qty := 1
            side := OrderSide.BUY, type := none, time_in_force := none }] }) :=
  ⟨by decide, C5_iron_condor_order okClient "IWM" "2026-03-20" 1 2 3 4 1
    TimeInForce.DAY (by decide)⟩

/-- C6: each strategy function raises `ValueError` exactly when its
strike-ordering precondition fails (bull: not `long_strike < short_strike`;
bear: not `short_strike < long_strike`; condor: the four strikes not
strictly ascending); in that case nothing is submitted to the brokerage and
a handler invocation reaching the call answers 400 with nothing
submitted. -/
theorem C6_value_error_iff_precondition :
    (∀ client u e ls ss q tif,
      ((trade_bull_call_spread client u e ls ss q tif).1
          = Except.error (PyError.valueError
            "For a Bull Call Spread, the long_strike must be less than the short_strike.")
        ↔ ¬ ls < ss) ∧
      (¬ ls < ss → (trade_bull_call_spread client u e ls ss q tif).2 = [])) ∧
    (∀ client u e ss ls q tif,
      ((trade_bear_call_spread client u e ss ls q tif).1
          = Except.error (PyError.valueError
            "For a Bear Call Spread, the short_strike must be less than the long_strike.")
        ↔ ¬ ss < ls) ∧
      (¬ ss < ls → (trade_bear_call_spread client u e ss ls q tif).2 = [])) ∧
    (∀ client u e lp sp sc lc q tif,
      ((trade_iron_condor client u e lp sp sc lc q tif).1
          = Except.error (PyError.valueError
            "Strikes must be in ascending order: long_put < short_put < short_call < long_call.")
        ↔ ¬ (lp < sp ∧ sp < sc ∧ sc < lc)) ∧
      (¬ (lp < sp ∧ sp < sc ∧ sc < lc) →
        (trade_iron_condor client u e lp sp sc lc q tif).2 = [])) ∧
    (∀ env mk client req data u e ls ss q,
      req.method = "POST" → req.json = some data →
      pyTruthy env.WEBHOOK_SECRET_KEY = true →
      data.secret_key = env.WEBHOOK_SECRET_KEY →
      pyTruthy env.ALPACA_API_KEY = true → pyTruthy env.ALPACA_SECRET_KEY = true →
      mk = Except.ok client →
      data.strategy = some "bull_call_spread" →
      data.params = ParamsDict.spreadParams u e ls ss q →
      ¬ ls < ss →
      handler env mk req = { status := 400, submitted := [] }) ∧
    (∀ env mk client req data u e ls ss q,
      req.method = "POST" → req.json = some data →
      pyTruthy env.WEBHOOK_SECRET_KEY = true →
      data.secret_key = env.WEBHOOK_SECRET_KEY →
      pyTruthy env.ALPACA_API_KEY = true → pyTruthy env.ALPACA_SECRET_KEY = true →
      mk = Except.ok client →
      data.strategy = some "bear_call_spread" →
      data.params = ParamsDict.spreadParams u e ls ss q →
      ¬ ss < ls →
      handler env mk req = { status := 400, submitted := [] }) ∧
    (∀ env mk client req data u e lp sp sc lc q,
      req.method = "POST" → req.json = some data →
      pyTruthy env.WEBHOOK_SECRET_KEY = true →
      data.secret_key = env.WEBHOOK_SECRET_KEY →
      pyTruthy env.ALPACA_API_KEY = true → pyTruthy env.ALPACA_SECRET_KEY = true →
      mk = Except.ok client →
      data.strategy = some "iron_condor" →
      data.params = ParamsDict.condorParams u e lp sp sc lc q →
      ¬ (lp < sp ∧ sp < sc ∧ sc < lc) →
      handler env mk req = { status := 400, submitted := [] }) := by
  refine ⟨?_, ?_, ?_, ?_, ?_, ?_⟩
  · intro client u e ls ss q tif
    refine ⟨⟨?_, ?_⟩, ?_⟩
    · intro hres h
      rw [trade_bull_result_eq, if_pos h] at hres
      cases hs : client.submit_order (bull_call_order_data u e ls ss q tif) <;>
        rw [hs] at hres <;> simp at hres
    · intro hn
      rw [trade_bull_fail client u e ls ss q tif hn]
    · intro hn
      rw [trade_bull_fail client u e ls ss q tif hn]
  · intro client u e ss ls q tif
    refine ⟨⟨?_, ?_⟩, ?_⟩
    · intro hres h
      rw [trade_bear_result_eq, if_pos h] at hres
      cases hs : client.submit_order (bear_call_order_data u e ss ls q tif) <;>
        rw [hs] at hres <;> simp at hres
    · intro hn
      rw [trade_bear_fail client u e ss ls q tif hn]
    · intro hn
      rw [trade_bear_fail client u e ss ls q tif hn]
  · intro client u e lp sp sc lc q tif
    refine ⟨⟨?_, ?_⟩, ?_⟩
    · intro hres h
      rw [trade_condor_result_eq, if_pos h] at hres
      cases hs : client.submit_order (iron_condor_order_data u e lp sp sc lc q tif) <;>
        rw [hs] at hres <;> simp at hres
    · intro hn
      rw [trade_condor_fail client u e lp sp sc lc q tif hn]
    · intro hn
      rw [trade_condor_fail client u e lp sp sc lc q tif hn]
  · intro env mk client req data u e ls ss q hm hj hsec hkey hak hsk hc hstrat hparams hn
    rw [handler_routes env mk client req data hm hj hsec hkey hak hsk hc,
      dispatch_bull_eq client data u e ls ss q hstrat hparams,
      trade_bull_fail client u e ls ss q TimeInForce.DAY hn]
    rfl
  · intro env mk client req data u e ls ss q hm hj hsec hkey hak hsk hc hstrat hparams hn
    rw [handler_routes env mk client req data hm hj hsec hkey hak hsk hc,
      dispatch_bear_eq client data u e ls ss q hstrat hparams,
      trade_bear_fail client u e ss ls q TimeInForce.DAY hn]
    rfl
  · intro env mk client req data u e lp sp sc lc q hm hj hsec hkey hak hsk hc hstrat hparams hn
    rw [handler_routes env mk client req data hm hj hsec hkey hak hsk hc,
      dispatch_condor_eq client data u e lp sp sc lc q hstrat hparams,
      trade_condor_fail client u e lp sp sc lc q TimeInForce.DAY hn]
    rfl

/-- A correctly authenticated request whose bull-call strikes are out of
order (`long_strike = 6 > short_strike = 5`). -/
def badStrikesPayload : WebhookPayload :=
  { secret_key := some "s3", strategy := some "bull_call_spread"
    params := ParamsDict.spreadParams "SPY" "2025-12-19" 6 5 1 }

/-- See `badStrikesPayload`. -/
def badStrikesReq : Request := { method := "POST", json := some badStrikesPayload }

/-- C6 at a concrete input. -/
theorem C6_value_error_iff_precondition_witness :
    (¬ (6 : ℚ) < 5) ∧
    (trade_bull_call_spread okClient "SPY" "2025-12-19" 6 5 1 TimeInForce.DAY).1
      = Except.error (PyError.valueError
        "For a Bull Call Spread, the long_strike must be less than the short_strike.") ∧
    (trade_bull_call_spread okClient "SPY" "2025-12-19" 6 5 1 TimeInForce.DAY).2 = [] ∧
    handler wEnv (Except.ok okClient) badStrikesReq = { status := 400, submitted := [] } :=
  ⟨by decide,
   (C6_value_error_iff_precondition.1 okClient "SPY" "2025-12-19" 6 5 1
      TimeInForce.DAY).1.mpr (by decide),
   (C6_value_error_iff_precondition.1 okClient "SPY" "2025-12-19" 6 5 1
      TimeInForce.DAY).2 (by decide),
   C6_value_error_iff_precondition.2.2.2.1 wEnv (Except.ok okClient) okClient
     badStrikesReq badStrikesPayload "SPY" "2025-12-19" 6 5 1
     rfl rfl (by decide) rfl (by decide) (by decide) rfl rfl rfl (by decide)⟩

/-- C8: per handler invocation `submit_order` is called at most once — no
retry or resubmission exists anywhere in the run; when the one submission
raises an `APIError`, the strategy function re-raises that error unchanged,
and the handler answers 500 with exactly the one submitted payload. -/
theorem C8_submit_at_most_once :
    (∀ env mk req, (handler env mk req).submitted.length ≤ 1) ∧
    (∀ client u e ls ss q tif err, ls < ss →
      client.submit_order (bull_call_order_data u e ls ss q tif) = Except.error err →
      (trade_bull_call_spread client u e ls ss q tif).1
        = Except.error (PyError.apiError err)) ∧
    (∀ client u e ss ls q tif err, ss < ls →
      client.submit_order (bear_call_order_data u e ss ls q tif) = Except.error err →
      (trade_bear_call_spread client u e ss ls q tif).1
        = Except.error (PyError.apiError err)) ∧
    (∀ client u e lp sp sc lc q tif err, lp < sp ∧ sp < sc ∧ sc < lc →
      client.submit_order (iron_condor_order_data u e lp sp sc lc q tif)
        = Except.error err →
      (trade_iron_condor client u e lp sp sc lc q tif).1
        = Except.error (PyError.apiError err)) ∧
    (∀ env mk client req data u e ls ss q err,
      req.method = "POST" → req.json = some data →
      pyTruthy env.WEBHOOK_SECRET_KEY = true →
      data.secret_key = env.WEBHOOK_SECRET_KEY →
      pyTruthy env.ALPACA_API_KEY = true → pyTruthy env.ALPACA_SECRET_KEY = true →
      mk = Except.ok client →
      data.strategy = some "bull_call_spread" →
      data.params = ParamsDict.spreadParams u e ls ss q →
      ls < ss →
      client.submit_order (bull_call_order_data u e ls ss q TimeInForce.DAY)
        = Except.error err →
      handler env mk req
        = { status := 500
            submitted := [bull_call_order_data u e ls ss q TimeInForce.DAY] }) := by
  refine ⟨?_, ?_, ?_, ?_, ?_⟩
  · intro env mk req
    unfold handler
    split
    · simp
    · split
      · simp
      · split
        · simp
        · split
          · simp
          · split
            · simp
            · exact dispatch_submits_le_one _ _
  · intro client u e ls ss q tif err h hsub
    rw [trade_bull_apierror client u e ls ss q tif err h hsub]
  · intro client u e ss ls q tif err h hsub
    rw [trade_bear_apierror client u e ss ls q tif err h hsub]
  · intro client u e lp sp sc lc q tif err h hsub
    rw [trade_condor_apierror client u e lp sp sc lc q tif err h hsub]
  · intro env mk client req data u e ls ss q err hm hj hsec hkey hak hsk hc hstrat hparams h hsub
    rw [handler_routes env mk client req data hm hj hsec hkey hak hsk hc,
      dispatch_bull_eq client data u e ls ss q hstrat hparams,
      trade_bull_apierror client u e ls ss q TimeInForce.DAY err h hsub]
    rfl

/-- A correctly authenticated bull-call request with well-ordered strikes,
sent to a brokerage that rejects the order. -/
def rejPayload : WebhookPayload :=
  { secret_key := some "s3", strategy := some "bull_call_spread"
    params := ParamsDict.spreadParams "SPY" "2025-12-19" 5 6 1 }

/-- See `rejPayload`. -/
def rejReq : Request := { method := "POST", json := some rejPayload }

/-- C8 at a concrete input. -/
theorem C8_submit_at_most_once_witness :
    (5 : ℚ) < 6 ∧
    handler wEnv (Except.ok rejectClient) rejReq
      = { status := 500
          submitted := [bull_call_order_data "SPY" "2025-12-19" 5 6 1 TimeInForce.DAY] } :=
  ⟨by decide,
   C8_submit_at_most_once.2.2.2.2 wEnv (Except.ok rejectClient) rejectClient
     rejReq rejPayload "SPY" "2025-12-19" 5 6 1 { msg := "rejected" }
     rfl rfl (by decide) rfl (by decide) (by decide) rfl rfl rfl (by decide) rfl⟩

end TradingBot
